import Mathlib

/-!
Shallow embedding of the AI-suggestion pipeline of the smart-todo backend
(src/backend/apps/ai_integration/services.py) together with the score-to-label
mappings, the batch prioritization endpoint (src/backend/apps/tasks/models.py,
src/backend/apps/tasks/api_view.py) and the Category usage counters.

Modelling conventions:
* Python floats are modelled as rationals; the decimal literals found in
  provider replies are parsed exactly.
* A provider HTTP call is modelled as `Option ProviderBody`: `none` means
  `_make_request` returned `None` (transport or HTTP error), `some b` is the
  parsed JSON body of a successful response.  Per the provider contract the
  body is a JSON object whose optional `choices` entry is a list of objects
  each holding a `message.content` string; `hasOtherKeys` records whether the
  object carries any further keys, which is what Python dict truthiness
  (`if response:`) depends on.
* Fallible Python code is embedded in `Except PyExc`; `.error e` is an
  uncaught Python exception propagating to the caller.
* Every `datetime` produced by `suggest_deadline` is at midnight, so results
  are modelled as calendar dates (`PyDate`).
* Prompt construction is not modelled: the parsing and fallback logic under
  verification is independent of the prompt text, so the provider reply is
  taken as the free input of each operation.
-/

/-- Whitespace characters removed by Python `str.strip()` (the ASCII set). -/
def pySpace (c : Char) : Bool :=
  c.toNat = 32 || c.toNat = 9 || c.toNat = 10 || c.toNat = 13 ||
    c.toNat = 11 || c.toNat = 12

/-- Python `str.strip()` on a character list. -/
def pyStripList (cs : List Char) : List Char :=
  ((cs.dropWhile pySpace).reverse.dropWhile pySpace).reverse

/-- Python `str.strip()`. -/
def pyStrip (s : String) : String :=
  String.mk (pyStripList s.data)

/-- Python exceptions the embedded code can raise. -/
inductive PyExc where
  | typeError
  | attributeError
deriving DecidableEq

/-- Parsed JSON body of a successful provider response, restricted to the
shapes relevant here: a JSON object with an optional `choices` key whose
entries are objects holding a `message.content` string (modelled as that
string), plus a flag recording whether the object has any other keys.  Python
truthiness of the dict is `choices present or other keys present`. -/
structure ProviderBody where
  choices : Option (List String)
  hasOtherKeys : Bool
deriving DecidableEq

/-- Truthiness of the parsed body as a Python dict (`if response:`). -/
def bodyTruthy (b : ProviderBody) : Bool :=
  b.choices.isSome || b.hasOtherKeys

/-- Embeds `AIService._extract_content`: the stripped content of the first choice,
`None` when the response is `None`/falsy, lacks `choices`, or `choices` is
empty. -/
def extract_content (response : Option ProviderBody) : Option String :=
  match response with
  | some b =>
    match b.choices with
    | some (c :: _) => some (pyStrip c)
    | _ => none
  | none => none

/-- JSON values, the universe `json.loads` parses into. -/
inductive JsonVal where
  | null
  | bool (b : Bool)
  | num (q : ℚ)
  | str (s : String)
  | arr (elems : List JsonVal)
  | obj (fields : List (String × JsonVal))

/-- The diagnostic object `analyze_context` builds when the reply is not
valid JSON: a dict with keys `error` and `raw_response`. -/
def formatErrorObj (raw : String) : JsonVal :=
  JsonVal.obj [("error", JsonVal.str "AI response format error"),
               ("raw_response", JsonVal.str raw)]

/-- Embeds `AIService.analyze_context`.  `loads` is the behaviour of the Python
standard-library `json.loads` (an external library function, taken as a
parameter: `some v` when the string is valid JSON parsing to `v`, `none` when
`json.JSONDecodeError` is raised).  The Python function returns the parsed
value, or the diagnostic object, or `None`; when the body is truthy but
yields no content, `json.loads(None)` raises `TypeError`, which the
surrounding `except json.JSONDecodeError` does not catch. -/
def analyze_context (loads : String → Option JsonVal)
    (response : Option ProviderBody) : Except PyExc (Option JsonVal) :=
  match response with
  | some b =>
    if bodyTruthy b then
      match extract_content (some b) with
      | none => Except.error PyExc.typeError
      | some content =>
        match loads content with
        | some v => Except.ok (some v)
        | none => Except.ok (some (formatErrorObj content))
    else Except.ok none
  | none => Except.ok none

/-- One scanning pass of `re.findall(r'\d+\.?\d*', s)`: at a digit, take the
maximal digit run, then optionally one `.` followed by a maximal digit run;
otherwise advance one character.  The fuel argument (instantiated with the
list length, an upper bound on the number of steps) only makes the recursion
structural; it never runs out. -/
def scanNumbersAux : Nat → List Char → List String
  | 0, _ => []
  | _ + 1, [] => []
  | fuel + 1, c :: cs =>
    if c.isDigit then
      let ipart := List.takeWhile Char.isDigit (c :: cs)
      match List.dropWhile Char.isDigit cs with
      | dot :: cs2 =>
        if dot = '.' then
          String.mk (ipart ++ '.' :: List.takeWhile Char.isDigit cs2) ::
            scanNumbersAux fuel (List.dropWhile Char.isDigit cs2)
        else
          String.mk ipart :: scanNumbersAux fuel (dot :: cs2)
      | [] => [String.mk ipart]
    else
      scanNumbersAux fuel cs

/-- Embedded `re.findall(r'\d+\.?\d*', s)`: the list of numeric substrings, leftmost
first. -/
def scanNumbers (cs : List Char) : List String :=
  scanNumbersAux cs.length cs

/-- Value of a digit run. -/
def digitsVal (ds : List Char) : Nat :=
  ds.foldl (fun n c => 10 * n + (c.toNat - 48)) 0

/-- Python `float(s)` on the strings matched by `\d+\.?\d*` (digits, an
optional point, digits), idealized to the exact decimal value. -/
def parseNum (s : String) : ℚ :=
  let ip := s.data.takeWhile Char.isDigit
  let rest := s.data.dropWhile Char.isDigit
  let fp := (rest.drop 1).takeWhile Char.isDigit
  (digitsVal ip : ℚ) + (digitsVal fp : ℚ) / (10 : ℚ) ^ fp.length

/-- Embeds `AIService.get_task_priority_score`, as a function of the provider
response.  A truthy body without a non-empty `choices` array makes
`_extract_content` return `None`, and `re.findall` on `None` raises
`TypeError`. -/
def get_task_priority_score (response : Option ProviderBody) :
    Except PyExc ℚ :=
  match response with
  | some b =>
    if bodyTruthy b then
      match extract_content (some b) with
      | none => Except.error PyExc.typeError
      | some content =>
        match scanNumbers content.data with
        | [] => Except.ok 0
        | n :: _ => Except.ok (max 0 (min 100 (parseNum n)))
    else Except.ok 0
  | none => Except.ok 0

/-- Calendar date (the dates handled here are always at day-start). -/
structure PyDate where
  year : Nat
  month : Nat
  day : Nat
deriving DecidableEq

/-- Gregorian leap year, as `datetime` computes it. -/
def isLeapYear (y : Nat) : Bool :=
  (y % 4 == 0 && y % 100 != 0) || y % 400 == 0

/-- Number of days of a month. -/
def daysInMonth (y m : Nat) : Nat :=
  if m = 2 then (if isLeapYear y then 29 else 28)
  else if m = 4 ∨ m = 6 ∨ m = 9 ∨ m = 11 then 30
  else 31

/-- The day after a date. -/
def nextDay (d : PyDate) : PyDate :=
  if d.day < daysInMonth d.year d.month then ⟨d.year, d.month, d.day + 1⟩
  else if d.month < 12 then ⟨d.year, d.month + 1, 1⟩
  else ⟨d.year + 1, 1, 1⟩

/-- Embedded `date + timedelta(days=n)`. -/
def addDays : PyDate → Nat → PyDate
  | d, 0 => d
  | d, n + 1 => addDays (nextDay d) n

/-- Attempt to match `\d{4}-\d{2}-\d{2}` at the start of the list, returning
the ten matched characters. -/
def matchDateAt (cs : List Char) : Option (List Char) :=
  match cs with
  | a :: b :: c :: d :: h1 :: e :: f :: h2 :: g :: h :: _ =>
    if a.isDigit && b.isDigit && c.isDigit && d.isDigit && h1 == '-' &&
       e.isDigit && f.isDigit && h2 == '-' && g.isDigit && h.isDigit then
      some [a, b, c, d, h1, e, f, h2, g, h]
    else none
  | _ => none

/-- Embedded `re.search(r'\d{4}-\d{2}-\d{2}', s)`: the leftmost match. -/
def findDateMatch : List Char → Option (List Char)
  | [] => none
  | c :: cs =>
    match matchDateAt (c :: cs) with
    | some m => some m
    | none => findDateMatch cs

/-- Embedded `datetime.strptime(s, '%Y-%m-%d')` on a ten-character match: succeeds
exactly when the components form a valid calendar date (`datetime` years
start at 1; four digits bound the year by 9999). -/
def parseDateDigits (ds : List Char) : Option PyDate :=
  match ds with
  | [a, b, c, d, _, e, f, _, g, h] =>
    let y := digitsVal [a, b, c, d]
    let m := digitsVal [e, f]
    let dd := digitsVal [g, h]
    if 1 ≤ y ∧ 1 ≤ m ∧ m ≤ 12 ∧ 1 ≤ dd ∧ dd ≤ daysInMonth y m then
      some ⟨y, m, dd⟩
    else none
  | _ => none

/-- Embeds `AIService.suggest_deadline`, as a function of the provider response and
of `current_date`.  On a match parsing as a valid date, that date (at
day-start); otherwise the fallback `current_date + 7 days`; but a truthy body
without a non-empty `choices` array reaches `re.search` with content `None`,
which raises `TypeError`. -/
def suggest_deadline (response : Option ProviderBody) (current_date : PyDate) :
    Except PyExc PyDate :=
  match response with
  | some b =>
    if bodyTruthy b then
      match extract_content (some b) with
      | none => Except.error PyExc.typeError
      | some content =>
        match findDateMatch content.data with
        | some ds =>
          match parseDateDigits ds with
          | some d => Except.ok d
          | none => Except.ok (addDays current_date 7)
        | none => Except.ok (addDays current_date 7)
    else Except.ok (addDays current_date 7)
  | none => Except.ok (addDays current_date 7)

/-- Python `s.split(',')`: split at every comma, keeping empty pieces. -/
def splitComma : List Char → List (List Char)
  | [] => [[]]
  | c :: cs =>
    if c = ',' then [] :: splitComma cs
    else
      match splitComma cs with
      | g :: gs => (c :: g) :: gs
      | [] => [[c]]

/-- The list-parsing step of `AIService.suggest_categories_and_tags`, exactly
as the source computes it: replace `\n` with a comma, DELETE every period
(`.replace('.', '')`), strip, split on commas, strip each piece, drop the
empty pieces. -/
def parse_tags (content : String) : List String :=
  let replaced := content.data.map (fun c => if c = '\n' then ',' else c)
  let removed := replaced.filter (fun c => c ≠ '.')
  let cleaned := pyStripList removed
  ((splitComma cleaned).map (fun g => pyStrip (String.mk g))).filter
    (fun s => ¬ s.isEmpty)

/-- The parsing step as the spec sentence words it, for comparison with
`parse_tags`: replace newline AND PERIOD characters with commas, split on
comma, trim each piece, drop empty pieces, preserve order. -/
def parse_tags_claimed (content : String) : List String :=
  let replaced := content.data.map
    (fun c => if c = '\n' ∨ c = '.' then ',' else c)
  ((splitComma replaced).map (fun g => pyStrip (String.mk g))).filter
    (fun s => ¬ s.isEmpty)

/-- Embeds `AIService.suggest_categories_and_tags`, as a function of the provider
response.  A truthy body without a non-empty `choices` array reaches
`content.replace` with content `None`, which raises `AttributeError`. -/
def suggest_categories_and_tags (response : Option ProviderBody) :
    Except PyExc (List String) :=
  match response with
  | some b =>
    if bodyTruthy b then
      match extract_content (some b) with
      | none => Except.error PyExc.attributeError
      | some content => Except.ok (parse_tags content)
    else Except.ok []
  | none => Except.ok []

/-- Embeds `AIService.enhance_task_description`, as a function of the provider
response and the original description: the extracted content when the
response is truthy (which is Python `None` when `choices` is missing or
empty), the original description otherwise. -/
def enhance_task_description (response : Option ProviderBody)
    (task_description : String) : Option String :=
  match response with
  | some b =>
    if bodyTruthy b then extract_content (some b)
    else some task_description
  | none => some task_description

/-- Built-in default endpoint of `AIService.__init__`. -/
def defaultApiUrl : String := "http://localhost:1234/v1/chat/completions"

/-- Built-in default model identifier of `AIService.__init__`. -/
def defaultModelName : String := "local-model"

/-- The two settings attributes `AIService.__init__` reads; `none` means the
attribute is absent from the Django settings object. -/
structure DjangoSettings where
  AI_MODEL_API_URL : Option String
  AI_MODEL_NAME : Option String

/-- Python `getattr(settings, name, default)`. -/
def getattrOr (v : Option String) (default : String) : String :=
  v.getD default

/-- Python `a or b` for an optional string `a` (`None` and the empty string
are falsy). -/
def pyOrStr (a : Option String) (b : String) : String :=
  match a with
  | some s => if s = "" then b else s
  | none => b

/-- The configuration fields `AIService.__init__` resolves. -/
structure AIService where
  api_url : String
  model_name : String
deriving DecidableEq

/-- Embeds `AIService.__init__`: `api_url or getattr(settings, 'AI_MODEL_API_URL',
default)` and likewise for the model name. -/
def AIService_init (api_url model_name : Option String)
    (settings : DjangoSettings) : AIService :=
  { api_url := pyOrStr api_url
      (getattrOr settings.AI_MODEL_API_URL defaultApiUrl),
    model_name := pyOrStr model_name
      (getattrOr settings.AI_MODEL_NAME defaultModelName) }

/-- Embeds `Category` (src/backend/apps/tasks/models.py): the fields the usage
counters touch.  `usage_frequency` is a Django `IntegerField`, hence an
integer. -/
structure Category where
  name : String
  usage_frequency : ℤ
deriving DecidableEq

/-- Embeds `Category.increment_usage`. -/
def increment_usage (c : Category) : Category :=
  { c with usage_frequency := c.usage_frequency + 1 }

/-- Embeds `Category.decrement_usage`: decrements only when positive. -/
def decrement_usage (c : Category) : Category :=
  if c.usage_frequency > 0 then
    { c with usage_frequency := c.usage_frequency - 1 }
  else c

/-- The persisted score-to-label mapping of `Task.set_ai_priority`. -/
def priority_label (score : ℚ) : String :=
  if score ≥ 80 then "urgent"
  else if score ≥ 60 then "high"
  else if score ≥ 30 then "medium"
  else "low"

/-- The display-only score-to-label mapping inlined in
`TaskViewSet.get_ai_suggestions` (and its new-task variant). -/
def suggested_priority_label (score : ℚ) : String :=
  if score ≥ 70 then "high"
  else if score ≥ 40 then "medium"
  else "low"

/-- Embeds `Task` (src/backend/apps/tasks/models.py): the fields the verified
operations touch.  Named `TodoTask` because `Task` is already taken by the
Lean core library. -/
structure TodoTask where
  id : Nat
  title : String
  description : String
  priority_score : ℚ
  priority : String
  is_ai_suggested : Bool
deriving DecidableEq

/-- Embeds `Task.set_ai_priority`: store the score and derive the label. -/
def set_ai_priority (t : TodoTask) (score : ℚ) : TodoTask :=
  { t with priority_score := score, priority := priority_label score }

/-- Embeds `Task.objects.get(id=i)` over a store of tasks (primary keys unique). -/
def store_find (store : List TodoTask) (i : Nat) : Option TodoTask :=
  store.find? (fun t => t.id == i)

/-- Persisting a saved task back into the store. -/
def store_update (store : List TodoTask) (t2 : TodoTask) : List TodoTask :=
  store.map (fun t => if t.id == t2.id then t2 else t)

/-- The task state `batch_ai_prioritization` persists for a found task whose
AI call returned `score`. -/
def batch_done (t : TodoTask) (score : ℚ) : TodoTask :=
  { set_ai_priority t score with is_ai_suggested := true }

/-- The loop of `TaskViewSet.batch_ai_prioritization`: for each id, look the
task up (`Task.DoesNotExist` skips the entry), score it via
`get_task_priority_score` on the response `ai i` that call receives, persist,
and count the processed entries.  An exception from the scoring call
propagates. -/
def batch_go (ai : Nat → Option ProviderBody) :
    List Nat → List TodoTask → Except PyExc (List TodoTask × Nat)
  | [], store => Except.ok (store, 0)
  | i :: rest, store =>
    match store_find store i with
    | none => batch_go ai rest store
    | some t =>
      match get_task_priority_score (ai i) with
      | Except.error e => Except.error e
      | Except.ok score =>
        match batch_go ai rest (store_update store (batch_done t score)) with
        | Except.ok (st, n) => Except.ok (st, n + 1)
        | Except.error e => Except.error e

/-- Embeds `TaskViewSet.batch_ai_prioritization`: final store and the number of
successfully processed entries reported in the response message. -/
def batch_ai_prioritization (ai : Nat → Option ProviderBody)
    (store : List TodoTask) (task_ids : List Nat) :
    Except PyExc (List TodoTask × Nat) :=
  batch_go ai task_ids store

/-! Helper lemmas about the task store. -/

theorem store_find_cons (a : TodoTask) (l : List TodoTask) (i : Nat) :
    store_find (a :: l) i =
      if (a.id == i) = true then some a else store_find l i := by
  by_cases h : (a.id == i) = true
  · rw [if_pos h]
    exact List.find?_cons_of_pos _ h
  · rw [if_neg h]
    exact List.find?_cons_of_neg _ h

theorem store_update_cons (a : TodoTask) (l : List TodoTask) (t2 : TodoTask) :
    store_update (a :: l) t2 =
      (if (a.id == t2.id) = true then t2 else a) :: store_update l t2 := rfl

theorem store_find_some_id (store : List TodoTask) (i : Nat) (t : TodoTask)
    (h : store_find store i = some t) : t.id = i := by
  have := List.find?_some h
  simpa using this

theorem store_find_update_ne (store : List TodoTask) (t2 : TodoTask)
    (i : Nat) (h : t2.id ≠ i) :
    store_find (store_update store t2) i = store_find store i := by
  induction store with
  | nil => rfl
  | cons a l ih =>
    rw [store_update_cons]
    by_cases ha : (a.id == t2.id) = true
    · have ha' : a.id = t2.id := by simpa using ha
      have h1 : (t2.id == i) = false := by simpa using h
      have h2 : (a.id == i) = false := by rw [ha']; exact h1
      rw [if_pos ha, store_find_cons, store_find_cons, h1, h2]
      simpa using ih
    · rw [if_neg ha, store_find_cons, store_find_cons, ih]

theorem store_find_update_eq (store : List TodoTask) (t2 : TodoTask)
    (t : TodoTask) (h : store_find store t2.id = some t) :
    store_find (store_update store t2) t2.id = some t2 := by
  induction store with
  | nil => simp [store_find] at h
  | cons a l ih =>
    rw [store_update_cons]
    by_cases ha : (a.id == t2.id) = true
    · rw [if_pos ha, store_find_cons]
      simp
    · rw [store_find_cons, if_neg ha] at h
      rw [if_neg ha, store_find_cons, if_neg ha]
      exact ih h

theorem store_find_update_isSome (store : List TodoTask) (t2 : TodoTask)
    (i : Nat) :
    (store_find (store_update store t2) i).isSome =
      (store_find store i).isSome := by
  induction store with
  | nil => rfl
  | cons a l ih =>
    rw [store_update_cons]
    by_cases ha : (a.id == t2.id) = true
    · have ha' : a.id = t2.id := by simpa using ha
      rw [if_pos ha, store_find_cons, store_find_cons]
      by_cases hi : (a.id == i) = true
      · have ht : (t2.id == i) = true := by rw [← ha']; exact hi
        rw [if_pos ht, if_pos hi]
        rfl
      · have ht : ¬ (t2.id == i) = true := by rw [← ha']; exact hi
        rw [if_neg ht, if_neg hi]
        exact ih
    · rw [if_neg ha, store_find_cons, store_find_cons]
      by_cases hi : (a.id == i) = true
      · rw [if_pos hi, if_pos hi]
      · rw [if_neg hi, if_neg hi]
        exact ih

theorem batch_done_idem (t : TodoTask) (q : ℚ) :
    batch_done (batch_done t q) q = batch_done t q := rfl

theorem batch_done_id (t : TodoTask) (q : ℚ) : (batch_done t q).id = t.id :=
  rfl

/-- Behaviour of the batch loop: when every scoring call on a found task
returns normally, the loop never aborts, counts exactly the found entries,
preserves which ids exist, persists the re-prioritized state of every found
task, and leaves tasks outside the id list untouched. -/
theorem batch_go_spec (ai : Nat → Option ProviderBody) :
    ∀ (ids : List Nat) (store : List TodoTask),
    (∀ i ∈ ids, (store_find store i).isSome = true →
        ∃ q, get_task_priority_score (ai i) = Except.ok q) →
    ∃ st n, batch_go ai ids store = Except.ok (st, n) ∧
      n = ids.countP (fun i => (store_find store i).isSome) ∧
      (∀ i, (store_find st i).isSome = (store_find store i).isSome) ∧
      (∀ i ∈ ids, ∀ t q, store_find store i = some t →
        get_task_priority_score (ai i) = Except.ok q →
        store_find st i = some (batch_done t q)) ∧
      (∀ i, i ∉ ids → store_find st i = store_find store i) := by
  intro ids
  induction ids with
  | nil =>
    intro store _
    exact ⟨store, 0, rfl, by simp, fun i => rfl, by simp, fun i _ => rfl⟩
  | cons i0 rest ih =>
    intro store hok
    cases hfind : store_find store i0 with
    | none =>
      obtain ⟨st, n, hgo, hcount, hpres, hdone, hframe⟩ :=
        ih store (fun i hi hs => hok i (List.mem_cons_of_mem _ hi) hs)
      refine ⟨st, n, ?_, ?_, hpres, ?_, ?_⟩
      · simp only [batch_go, hfind]
        exact hgo
      · rw [hcount, List.countP_cons]
        simp [hfind]
      · intro i hi t q hft hq
        rcases List.mem_cons.mp hi with hi0 | hir
        · subst hi0
          rw [hfind] at hft
          exact absurd hft (by simp)
        · exact hdone i hir t q hft hq
      · intro i hi
        exact hframe i (fun hmem => hi (List.mem_cons_of_mem _ hmem))
    | some t =>
      obtain ⟨q, hq⟩ := hok i0 (List.mem_cons_self _ _) (by simp [hfind])
      have hid : t.id = i0 := store_find_some_id store i0 t hfind
      have hupid : (batch_done t q).id = i0 := by rw [batch_done_id, hid]
      have hfind' : store_find (store_update store (batch_done t q)) i0 =
          some (batch_done t q) := by
        have h0 := store_find_update_eq store (batch_done t q) t
          (by rw [hupid]; exact hfind)
        rwa [hupid] at h0
      have hpres' : ∀ i,
          (store_find (store_update store (batch_done t q)) i).isSome =
            (store_find store i).isSome :=
        fun i => store_find_update_isSome store (batch_done t q) i
      obtain ⟨st, n, hgo, hcount, hpres, hdone, hframe⟩ :=
        ih (store_update store (batch_done t q))
          (fun i hi hs => hok i (List.mem_cons_of_mem _ hi)
            (by rw [← hpres' i]; exact hs))
      refine ⟨st, n + 1, ?_, ?_, ?_, ?_, ?_⟩
      · simp only [batch_go, hfind, hq, hgo]
      · have hfun : (fun i =>
            (store_find (store_update store (batch_done t q)) i).isSome) =
            (fun i => (store_find store i).isSome) := funext hpres'
        rw [hcount, hfun, List.countP_cons]
        simp [hfind]
      · intro i
        rw [hpres i, hpres' i]
      · intro i hi ti qi hft hqi
        by_cases hii : i = i0
        · subst hii
          rw [hfind] at hft
          injection hft with hft2
          subst hft2
          rw [hq] at hqi
          injection hqi with hq2
          subst hq2
          by_cases hmem : i ∈ rest
          · have hd := hdone i hmem (batch_done t q) q hfind' hq
            rwa [batch_done_idem] at hd
          · rw [hframe i hmem]
            exact hfind'
        · have hir : i ∈ rest := by
            rcases List.mem_cons.mp hi with h1 | h2
            · exact absurd h1 hii
            · exact h2
          have hne : (batch_done t q).id ≠ i := by
            rw [batch_done_id, hid]
            exact fun hc => hii hc.symm
          refine hdone i hir ti qi ?_ hqi
          rw [store_find_update_ne store (batch_done t q) i hne]
          exact hft
      · intro i hi
        have hi0 : i ≠ i0 := by
          intro hc
          subst hc
          exact hi (List.mem_cons_self _ _)
        have hir : i ∉ rest := fun hc => hi (List.mem_cons_of_mem _ hc)
        have hne : (batch_done t q).id ≠ i := by
          rw [batch_done_id, hid]
          exact fun hc => hi0 hc.symm
        rw [hframe i hir, store_find_update_ne store (batch_done t q) i hne]

/-- A successful extraction forces the body to have a non-empty `choices`
list, hence to be a truthy dict. -/
theorem extract_content_truthy (b : ProviderBody) (content : String)
    (hx : extract_content (some b) = some content) : bodyTruthy b = true := by
  cases hcb : b.choices with
  | none => simp [extract_content, hcb] at hx
  | some l =>
    cases l with
    | nil => simp [extract_content, hcb] at hx
    | cons c cl => simp [bodyTruthy, hcb]

/-- Claim C1: for every provider reply whose text contains a numeric
substring (digits, optionally with one decimal point),
`get_task_priority_score` returns the first such number clamped to [0,100]:
values above 100 come back as 100, negative values as 0, and in-range values
unchanged.  `scanNumbers` is the embedded `re.findall(r'\d+\.?\d*', ...)`,
so the hypothesis `hs` states that the reply contains numeric substrings and
`n` is the first of them. -/
theorem C1_priority_first_number_clamped (b : ProviderBody)
    (content n : String) (ns : List String)
    (hx : extract_content (some b) = some content)
    (hs : scanNumbers content.data = n :: ns) :
    get_task_priority_score (some b) =
      Except.ok (max 0 (min 100 (parseNum n))) ∧
    (parseNum n > 100 → max 0 (min 100 (parseNum n)) = 100) ∧
    (parseNum n < 0 → max 0 (min 100 (parseNum n)) = 0) ∧
    (0 ≤ parseNum n → parseNum n ≤ 100 →
      max 0 (min 100 (parseNum n)) = parseNum n) ∧
    0 ≤ max 0 (min 100 (parseNum n)) ∧
    max 0 (min 100 (parseNum n)) ≤ 100 := by
  have hb : bodyTruthy b = true := extract_content_truthy b content hx
  refine ⟨?_, ?_, ?_, ?_, ?_, ?_⟩
  · simp only [get_task_priority_score, hb, if_true, hx, hs]
  · intro h
    rw [min_eq_left (le_of_lt h)]
    norm_num
  · intro h
    rw [min_eq_right (le_of_lt (lt_trans h (by norm_num)))]
    exact max_eq_left (le_of_lt h)
  · intro h0 h100
    rw [min_eq_right h100, max_eq_right h0]
  · exact le_max_left 0 _
  · exact max_le (by norm_num) (min_le_left _ _)

theorem C1_priority_first_number_clamped_witness :
    get_task_priority_score (some ⟨some ["score: 150"], false⟩) =
      Except.ok 100 := by
  have h := C1_priority_first_number_clamped ⟨some ["score: 150"], false⟩
    "score: 150" "150" [] (by decide) (by decide)
  have h150 : parseNum "150" = 150 := by simp [parseNum, digitsVal]
  rw [h.1, h.2.1 (by rw [h150]; norm_num)]

/-- Claim C2 (code bug): the claim says a 2xx response missing `choices` is
handled identically to a transport failure (0.0, no exception), but on a
truthy JSON body without a non-empty `choices` array the code passes
`None` to `re.findall`, which raises `TypeError` to the caller.  Transport
failure and a reply without numeric substrings do return 0.0. -/
theorem C2_missing_choices_raises_typeerror :
    get_task_priority_score (some ⟨none, true⟩) =
      Except.error PyExc.typeError ∧
    get_task_priority_score none = Except.ok 0 ∧
    get_task_priority_score (some ⟨some ["no score here"], false⟩) =
      Except.ok 0 := by
  refine ⟨rfl, rfl, rfl⟩

/-- Claim C3 (code bug): the claim says `suggest_deadline` always produces a
date and never signals absence, but on a truthy JSON body without a
non-empty `choices` array the code passes `None` to `re.search`, which
raises `TypeError`.  The other documented cases behave as claimed: transport
failure falls back to `current_date + 7` days, a valid `YYYY-MM-DD` match is
returned as that date, and an unparsable match (month 13, day 45) falls back
to `current_date + 7` days. -/
theorem C3_deadline_missing_choices_raises :
    suggest_deadline (some ⟨none, true⟩) ⟨2025, 7, 6⟩ =
      Except.error PyExc.typeError ∧
    suggest_deadline none ⟨2025, 7, 6⟩ = Except.ok ⟨2025, 7, 13⟩ ∧
    suggest_deadline (some ⟨some ["2025-07-20"], false⟩) ⟨2025, 7, 6⟩ =
      Except.ok ⟨2025, 7, 20⟩ ∧
    suggest_deadline (some ⟨some ["2025-13-45"], false⟩) ⟨2025, 7, 6⟩ =
      Except.ok ⟨2025, 7, 13⟩ := by
  refine ⟨rfl, rfl, rfl, rfl⟩

/-- Claim C4, counterexample: the claim says periods are replaced by commas,
but `suggest_categories_and_tags` deletes them (`.replace('.', '')`), so the
reply `"A.B"` yields `["AB"]` while the claimed parsing policy yields
`["A", "B"]`. -/
theorem C4_period_deleted_counterexample :
    suggest_categories_and_tags (some ⟨some ["A.B"], false⟩) =
      Except.ok ["AB"] ∧
    parse_tags_claimed "A.B" = ["A", "B"] ∧
    (["AB"] : List String) ≠ ["A", "B"] := by
  refine ⟨rfl, by decide, by decide⟩

/-- Claim C4, amended: for every provider reply,
`suggest_categories_and_tags` computes its result by replacing newline
characters with commas, DELETING period characters, trimming, splitting on
comma, trimming each piece and dropping empty pieces while preserving
first-seen order (`parse_tags` transcribes exactly that); the documented
round-trip example still holds, and on provider-call failure the result is
the empty sequence. -/
theorem C4_categories_parse (b : ProviderBody) (content : String)
    (hx : extract_content (some b) = some content) :
    suggest_categories_and_tags (some b) = Except.ok (parse_tags content) ∧
    suggest_categories_and_tags none = Except.ok [] ∧
    parse_tags "Work, Urgent.\nHome" = ["Work", "Urgent", "Home"] := by
  have hb : bodyTruthy b = true := extract_content_truthy b content hx
  refine ⟨?_, rfl, by decide⟩
  simp only [suggest_categories_and_tags, hb, if_true, hx]

theorem C4_categories_parse_witness :
    suggest_categories_and_tags
      (some ⟨some ["Work, Urgent.\nHome"], false⟩) =
      Except.ok ["Work", "Urgent", "Home"] := by
  have h := C4_categories_parse ⟨some ["Work, Urgent.\nHome"], false⟩
    "Work, Urgent.\nHome" (by decide)
  rw [h.1, h.2.2]

/-- Claim C5: `analyze_context` distinguishes the two failure modes.  For a
reply whose text is not valid JSON (`loads` yields `none`) it returns the
diagnostic object carrying the raw text; for a reply that is valid JSON it
returns the parsed value exactly; for a failed provider call it returns the
absence signal `none`, which differs from every parse-error object. -/
theorem C5_analyze_context_policy (loads : String → Option JsonVal)
    (b : ProviderBody) (content : String)
    (hx : extract_content (some b) = some content) :
    (loads content = none →
      analyze_context loads (some b) =
        Except.ok (some (formatErrorObj content))) ∧
    (∀ v, loads content = some v →
      analyze_context loads (some b) = Except.ok (some v)) ∧
    analyze_context loads none = Except.ok none ∧
    (∀ s, (some (formatErrorObj s) : Option JsonVal) ≠ none) := by
  have hb : bodyTruthy b = true := extract_content_truthy b content hx
  refine ⟨?_, ?_, rfl, fun s h => Option.noConfusion h⟩
  · intro hl
    simp only [analyze_context, hb, if_true, hx, hl]
  · intro v hl
    simp only [analyze_context, hb, if_true, hx, hl]

theorem C5_analyze_context_policy_witness :
    analyze_context (fun s => if s = "x" then some JsonVal.null else none)
      (some ⟨some ["not json"], false⟩) =
      Except.ok (some (formatErrorObj "not json")) := by
  have h := C5_analyze_context_policy
    (fun s => if s = "x" then some JsonVal.null else none)
    ⟨some ["not json"], false⟩ "not json" (by decide)
  exact h.1 rfl

/-- Claim C6 (code bug): the claim says the output of
`enhance_task_description` is never absent and on provider failure equals
the original description; on transport failure the original description is
indeed returned, but on a truthy JSON body without a non-empty `choices`
array the function returns `_extract_content`'s result, which is Python
`None` — an absent output. -/
theorem C6_enhance_missing_choices_absent :
    enhance_task_description (some ⟨none, true⟩) "original description" =
      none ∧
    enhance_task_description none "original description" =
      some "original description" :=
  ⟨rfl, rfl⟩

/-- Claim C7: the two score-to-label mappings.  The persisted mapping of
`Task.set_ai_priority` yields urgent at 80 and above, high on [60, 80),
medium on [30, 60) and low below 30; the display-only mapping of
`get_ai_suggestions` yields high at 70 and above, medium on [40, 70) and low
below 40. -/
theorem C7_two_label_mappings (t : TodoTask) (s : ℚ) :
    (80 ≤ s → (set_ai_priority t s).priority = "urgent") ∧
    (60 ≤ s → s < 80 → (set_ai_priority t s).priority = "high") ∧
    (30 ≤ s → s < 60 → (set_ai_priority t s).priority = "medium") ∧
    (s < 30 → (set_ai_priority t s).priority = "low") ∧
    (70 ≤ s → suggested_priority_label s = "high") ∧
    (40 ≤ s → s < 70 → suggested_priority_label s = "medium") ∧
    (s < 40 → suggested_priority_label s = "low") := by
  refine ⟨?_, ?_, ?_, ?_, ?_, ?_, ?_⟩
  · intro h
    simp [set_ai_priority, priority_label, ge_iff_le, h]
  · intro h1 h2
    simp [set_ai_priority, priority_label, ge_iff_le, h1, not_le.mpr h2]
  · intro h1 h2
    have h80 : ¬ (80 : ℚ) ≤ s := not_le.mpr (lt_trans h2 (by norm_num))
    have h60 : ¬ (60 : ℚ) ≤ s := not_le.mpr h2
    simp [set_ai_priority, priority_label, ge_iff_le, h1, h80, h60]
  · intro h
    have h80 : ¬ (80 : ℚ) ≤ s := not_le.mpr (lt_trans h (by norm_num))
    have h60 : ¬ (60 : ℚ) ≤ s := not_le.mpr (lt_trans h (by norm_num))
    have h30 : ¬ (30 : ℚ) ≤ s := not_le.mpr h
    simp [set_ai_priority, priority_label, ge_iff_le, h80, h60, h30]
  · intro h
    simp [suggested_priority_label, ge_iff_le, h]
  · intro h1 h2
    simp [suggested_priority_label, ge_iff_le, h1, not_le.mpr h2]
  · intro h
    have h70 : ¬ (70 : ℚ) ≤ s := not_le.mpr (lt_trans h (by norm_num))
    have h40 : ¬ (40 : ℚ) ≤ s := not_le.mpr h
    simp [suggested_priority_label, ge_iff_le, h70, h40]

theorem C7_two_label_mappings_witness :
    (set_ai_priority ⟨1, "t", "d", 0, "medium", false⟩ 85).priority =
      "urgent" ∧
    (set_ai_priority ⟨1, "t", "d", 0, "medium", false⟩ 65).priority =
      "high" ∧
    (set_ai_priority ⟨1, "t", "d", 0, "medium", false⟩ 45).priority =
      "medium" ∧
    (set_ai_priority ⟨1, "t", "d", 0, "medium", false⟩ 10).priority =
      "low" ∧
    suggested_priority_label 75 = "high" ∧
    suggested_priority_label 50 = "medium" ∧
    suggested_priority_label 10 = "low" :=
  ⟨(C7_two_label_mappings ⟨1, "t", "d", 0, "medium", false⟩ 85).1
      (by norm_num),
    (C7_two_label_mappings ⟨1, "t", "d", 0, "medium", false⟩ 65).2.1
      (by norm_num) (by norm_num),
    (C7_two_label_mappings ⟨1, "t", "d", 0, "medium", false⟩ 45).2.2.1
      (by norm_num) (by norm_num),
    (C7_two_label_mappings ⟨1, "t", "d", 0, "medium", false⟩ 10).2.2.2.1
      (by norm_num),
    (C7_two_label_mappings ⟨1, "t", "d", 0, "medium", false⟩ 75).2.2.2.2.1
      (by norm_num),
    (C7_two_label_mappings ⟨1, "t", "d", 0, "medium", false⟩ 50).2.2.2.2.2.1
      (by norm_num) (by norm_num),
    (C7_two_label_mappings ⟨1, "t", "d", 0, "medium", false⟩ 10).2.2.2.2.2.2
      (by norm_num)⟩

/-- Claim C8: batch prioritization processes entries independently.  Over a
store with unique primary keys, and provided each scoring call on a found
task returns normally, the batch never aborts: a not-found id is skipped,
the reported count is exactly the number of ids found in the store, and
every found task ends up saved with its AI score, derived label and the
`is_ai_suggested` mark. -/
theorem C8_batch_entries_independent (ai : Nat → Option ProviderBody)
    (store : List TodoTask) (ids : List Nat)
    (_hnd : (store.map TodoTask.id).Nodup)
    (hok : ∀ i ∈ ids, (store_find store i).isSome = true →
      ∃ q, get_task_priority_score (ai i) = Except.ok q) :
    ∃ st n, batch_ai_prioritization ai store ids = Except.ok (st, n) ∧
      n = ids.countP (fun i => (store_find store i).isSome) ∧
      ∀ i ∈ ids, ∀ t q, store_find store i = some t →
        get_task_priority_score (ai i) = Except.ok q →
        store_find st i = some (batch_done t q) := by
  obtain ⟨st, n, h1, h2, _, h4, _⟩ := batch_go_spec ai ids store hok
  exact ⟨st, n, h1, h2, h4⟩

theorem C8_batch_entries_independent_witness :
    ∃ st n,
      batch_ai_prioritization (fun _ => none)
        [⟨1, "a", "d", 0, "medium", false⟩] [1, 99] = Except.ok (st, n) ∧
      n = [1, 99].countP
        (fun i =>
          (store_find [⟨1, "a", "d", 0, "medium", false⟩] i).isSome) ∧
      ∀ i ∈ [1, 99], ∀ t q,
        store_find [⟨1, "a", "d", 0, "medium", false⟩] i = some t →
        get_task_priority_score none = Except.ok q →
        store_find st i = some (batch_done t q) :=
  C8_batch_entries_independent (fun _ => none)
    [⟨1, "a", "d", 0, "medium", false⟩] [1, 99] (by decide)
    (fun _ _ _ => ⟨0, rfl⟩)

/-- Claim C9: engine configuration resolved at construction with precedence
explicit argument, then settings, then built-in default, for both fields;
with neither argument nor setting the documented defaults apply.  Python
truthiness makes a `None` or empty-string argument count as not supplied
(`api_url or getattr(...)`). -/
theorem C9_config_precedence (a m : Option String) (st : DjangoSettings) :
    (∀ s, a = some s → s ≠ "" → (AIService_init a m st).api_url = s) ∧
    (a = none → ∀ v, st.AI_MODEL_API_URL = some v →
      (AIService_init a m st).api_url = v) ∧
    (a = none → st.AI_MODEL_API_URL = none →
      (AIService_init a m st).api_url = defaultApiUrl) ∧
    (∀ s, m = some s → s ≠ "" → (AIService_init a m st).model_name = s) ∧
    (m = none → ∀ v, st.AI_MODEL_NAME = some v →
      (AIService_init a m st).model_name = v) ∧
    (m = none → st.AI_MODEL_NAME = none →
      (AIService_init a m st).model_name = defaultModelName) ∧
    AIService_init none none ⟨none, none⟩ =
      { api_url := "http://localhost:1234/v1/chat/completions",
        model_name := "local-model" } := by
  refine ⟨?_, ?_, ?_, ?_, ?_, ?_, rfl⟩
  · intro s hs hne
    subst hs
    simp [AIService_init, pyOrStr, hne]
  · intro ha v hv
    subst ha
    simp [AIService_init, pyOrStr, getattrOr, hv]
  · intro ha hv
    subst ha
    simp [AIService_init, pyOrStr, getattrOr, hv]
  · intro s hs hne
    subst hs
    simp [AIService_init, pyOrStr, hne]
  · intro hm v hv
    subst hm
    simp [AIService_init, pyOrStr, getattrOr, hv]
  · intro hm hv
    subst hm
    simp [AIService_init, pyOrStr, getattrOr, hv]

theorem C9_config_precedence_witness :
    (AIService_init (some "http://host/a") none
      ⟨some "http://set/b", some "mset"⟩).api_url = "http://host/a" ∧
    (AIService_init (some "http://host/a") none
      ⟨some "http://set/b", some "mset"⟩).model_name = "mset" ∧
    AIService_init none none ⟨none, none⟩ =
      { api_url := "http://localhost:1234/v1/chat/completions",
        model_name := "local-model" } :=
  ⟨(C9_config_precedence (some "http://host/a") none
      ⟨some "http://set/b", some "mset"⟩).1 "http://host/a" rfl
      (by decide),
    (C9_config_precedence (some "http://host/a") none
      ⟨some "http://set/b", some "mset"⟩).2.2.2.2.1 rfl "mset" rfl,
    (C9_config_precedence none none ⟨none, none⟩).2.2.2.2.2.2⟩

/-- Claim C10: on a category with non-negative usage frequency the counters
stay non-negative: increment adds exactly one, decrement at zero is the
identity, and decrement on a positive count subtracts exactly one. -/
theorem C10_usage_frequency_nonneg (c : Category)
    (h : 0 ≤ c.usage_frequency) :
    (increment_usage c).usage_frequency = c.usage_frequency + 1 ∧
    0 ≤ (increment_usage c).usage_frequency ∧
    (c.usage_frequency = 0 → decrement_usage c = c) ∧
    (0 < c.usage_frequency →
      (decrement_usage c).usage_frequency = c.usage_frequency - 1) ∧
    0 ≤ (decrement_usage c).usage_frequency := by
  refine ⟨rfl, by simp [increment_usage]; omega, ?_, ?_, ?_⟩
  · intro h0
    simp [decrement_usage, h0]
  · intro hpos
    simp [decrement_usage, hpos]
  · by_cases hpos : c.usage_frequency > 0
    · simp [decrement_usage, hpos]
      omega
    · simp [decrement_usage, hpos]
      exact h

theorem C10_usage_frequency_nonneg_witness :
    (increment_usage ⟨"work", 0⟩).usage_frequency = 0 + 1 ∧
    0 ≤ (increment_usage ⟨"work", 0⟩).usage_frequency ∧
    ((0 : ℤ) = 0 → decrement_usage ⟨"work", 0⟩ = ⟨"work", 0⟩) ∧
    ((0 : ℤ) < 0 →
      (decrement_usage ⟨"work", 0⟩).usage_frequency = 0 - 1) ∧
    0 ≤ (decrement_usage ⟨"work", 0⟩).usage_frequency :=
  C10_usage_frequency_nonneg ⟨"work", 0⟩ (by decide)
